import Mathlib

/-!
Verification of the core of a desktop media downloader (hex.py):
platform detection, download-option derivation, the thread-safe
progress/cancellation relay, and the download orchestrator state machine.
Each definition is a shallow embedding of the corresponding Python
function; theorems settle the spec claims against them.
-/

namespace Hex

/-- Case-insensitive handling is done by lowering both sides where the
Python code does; this is plain substring containment on characters,
the meaning of re.search on the literal patterns used in hex.py
(every pattern is literal text, with backslash-dot denoting a literal dot). -/
def charsContain (needle : List Char) : List Char → Bool
  | [] => needle.isEmpty
  | c :: rest => needle.isPrefixOf (c :: rest) || charsContain needle rest

def strContains (hay needle : String) : Bool :=
  charsContain needle.toList hay.toList

/-- ASCII lowercasing of a string, the effect of Python str.lower on the
ASCII messages, urls and patterns this program compares. -/
def lowerStr (s : String) : String :=
  String.mk (s.toList.map Char.toLower)

/-- Python slicing s[:n]. -/
def strTake (s : String) (n : Nat) : String :=
  String.mk (s.toList.take n)

/-- Python str.strip: whitespace removed from both ends. -/
def pyIsSpace (c : Char) : Bool :=
  c = ' ' || c = '\t' || c = '\n' || c = '\r' || c = '\x0b' || c = '\x0c'

def trimStr (s : String) : String :=
  String.mk (((s.toList.dropWhile pyIsSpace).reverse.dropWhile pyIsSpace).reverse)

def strStartsWith (s pre : String) : Bool :=
  pre.toList.isPrefixOf s.toList

/-- Embedding of the pattern table of detect_platform (hex.py lines 102-113),
in the Python dict insertion order, with each regex written as the literal
text it matches. -/
def platformPatterns : List (String × List String) :=
  [ ("youtube", ["youtube.com/watch", "youtu.be/", "youtube.com/shorts/"]),
    ("tiktok", ["tiktok.com/", "vm.tiktok.com/", "vt.tiktok.com/"]),
    ("instagram", ["instagram.com/", "instagr.am/"]),
    ("twitter", ["twitter.com/", "x.com/"]),
    ("facebook", ["facebook.com/", "fb.watch/"]),
    ("vimeo", ["vimeo.com/"]),
    ("dailymotion", ["dailymotion.com/"]),
    ("twitch", ["twitch.tv/", "twitch.tv/videos/"]),
    ("reddit", ["reddit.com/", "redd.it/"]),
    ("bilibili", ["bilibili.com/", "b23.tv/"]) ]

/-- One pattern test: re.search(pattern, url, re.IGNORECASE) on a literal
pattern is case-insensitive substring search. -/
def patternMatches (url pat : String) : Bool :=
  strContains (lowerStr url) (lowerStr pat)

/-- The nested loop of detect_platform (hex.py lines 115-120): first
platform, in table order, any of whose patterns matches the url. -/
def detectFrom : List (String × List String) → String → Option String
  | [], _ => none
  | (plat, pats) :: rest, url =>
    if pats.any (fun p => patternMatches url p) then some plat
    else detectFrom rest url

/-- detect_platform (hex.py lines 100-120). -/
def detect_platform (url : String) : Option String :=
  detectFrom platformPatterns url

/-- The message relay (hex.py lines 58-71): message_queue is a FIFO queue;
queue_gui_update is the producer side, a single put. -/
def queue_gui_update {E : Type} (q : List E) (e : E) : List E :=
  q ++ [e]

/-- process_queue (hex.py lines 58-67): the drain loop repeatedly takes
get_nowait from the front and applies the event, stopping (without
blocking) when the queue raises Empty; the result is the list of events
in the order they are applied. Totality of this Lean function is the
non-blocking property: the loop is linear in the queued events. -/
def process_queue {E : Type} : List E → List E
  | [] => []
  | e :: rest => e :: process_queue rest

end Hex

namespace Hex

/-- Progress dictionary passed by the library to progress_hook; absent
keys are none. Byte counters and speed are modeled as rationals, the
exact values the Python arithmetic manipulates. -/
structure ProgressDict where
  status : String
  total_bytes : Option ℚ
  total_bytes_estimate : Option ℚ
  downloaded_bytes : Option ℚ
  speed : Option ℚ
deriving Repr, DecidableEq

/-- Python expression total = d.get(total_bytes) or d.get(total_bytes_estimate, 0)
(hex.py line 622): the or is on truthiness, so a missing or zero
total_bytes falls through to the estimate (default 0). -/
def hookTotal (d : ProgressDict) : ℚ :=
  match d.total_bytes with
  | some t => if t ≠ 0 then t else d.total_bytes_estimate.getD 0
  | none => d.total_bytes_estimate.getD 0

/-- The percent computed by progress_hook in the downloading branch
(hex.py lines 620-626): defined only when the status is downloading, a
total key is present and the total is positive; then
percent = downloaded / total * 100, with no clamping. -/
def progress_percent (d : ProgressDict) : Option ℚ :=
  if d.status = "downloading" ∧ (d.total_bytes.isSome ∨ d.total_bytes_estimate.isSome) then
    if 0 < hookTotal d then
      some (d.downloaded_bytes.getD 0 / hookTotal d * 100)
    else none
  else none

/-- progress_hook (hex.py lines 615-646): when the cancel flag is set it
raises DownloadError with this exact message before any progress handling;
otherwise it reports the computed percent (if any) to the GUI queue. -/
def progress_hook (cancelFlag : Bool) (d : ProgressDict) : Except String (Option ℚ) :=
  if cancelFlag then Except.error "Download cancelled by user"
  else Except.ok (progress_percent d)

/-- Result of running the external library inside download_worker:
extract_info either returns an info structure (whose title, already
defaulted to Unknown by the Python .get, we carry; none models a falsy
info), or raises DownloadError with a message, or raises some other
exception with a message. -/
inductive LibRun : Type
  | success (title : Option String)
  | downloadError (msg : String)
  | otherError (msg : String)
deriving Repr, DecidableEq

/-- Terminal outcome of one run of download_worker. -/
inductive Outcome : Type
  | finished (title : String)
  | noInfo
  | cancelledOut
  | failed (msg : String)
deriving Repr, DecidableEq

/-- The outcome classification of download_worker (hex.py lines 720-761):
a DownloadError whose lowercased text contains cancelled is the cancelled
terminal; any other DownloadError, and any unexpected exception, is a
failure carrying the raw text truncated to 100 characters. -/
def download_worker_outcome : LibRun → Outcome
  | LibRun.success (some title) => Outcome.finished title
  | LibRun.success none => Outcome.noInfo
  | LibRun.downloadError msg =>
      if strContains (lowerStr msg) "cancelled" then Outcome.cancelledOut
      else Outcome.failed (strTake msg 100)
  | LibRun.otherError msg => Outcome.failed (strTake msg 100)

/-- The log line emitted by the DownloadError handler of download_worker
(hex.py lines 744-750). -/
def download_worker_log (msg : String) : String :=
  if strContains (lowerStr msg) "cancelled" then "✗ Download cancelled"
  else "✗ Download failed: " ++ strTake msg 100

/-- The log line emitted by the DownloadError handler of get_video_info
(hex.py lines 601-608): the only place in the program that classifies
private and geo-restricted failures. -/
def classify_info_error (msg : String) : String :=
  if strContains msg "Private video" || strContains msg "Sign in" then
    "✗ Private/age-restricted video (use cookies)"
  else if strContains (lowerStr msg) "not available" then
    "✗ Geo-restricted content (use proxy)"
  else
    "✗ Error: " ++ strTake msg 100

end Hex

namespace Hex

/-- One yt-dlp postprocessor dictionary as built in get_ydl_options;
fields absent from a given dictionary are none. -/
structure Postprocessor where
  key : String
  preferredcodec : Option String
  preferredquality : Option String
  add_metadata : Option Bool
deriving Repr, DecidableEq

/-- The ydl_opts dictionary assembled by get_ydl_options (hex.py lines
648-718); keys the function may leave unset are Option or default false. -/
structure YdlOptions where
  outtmpl : String
  quiet : Bool
  no_warnings : Bool
  overwrites : Bool
  socket_timeout : Nat
  user_agent : String
  proxy : Option String
  cookiefile : Option String
  format : String
  postprocessors : List Postprocessor
  merge_output_format : Option String
  writesubtitles : Bool
  embedsubtitles : Bool
  writethumbnail : Bool
  embedthumbnail : Bool
  addmetadata : Bool
deriving Repr, DecidableEq

/-- The UI fields get_ydl_options reads, plus the one filesystem fact it
consults (os.path.exists on the cookies path). -/
structure UiSettings where
  output_path : String
  format : String
  quality : String
  subtitle : Bool
  thumbnail : Bool
  metadata : Bool
  user_agent : String
  proxy : String
  cookies : String
  cookiesFileExists : Bool
deriving Repr, DecidableEq

/-- os.path.join for the fixed relative template component used here. -/
def pathJoin (dir file : String) : String :=
  if strStartsWith (String.mk dir.toList.reverse) "/" then dir ++ file
  else dir ++ "/" ++ file

/-- Python str.replace(c, empty string) for a one-character needle, used
as quality.replace in hex.py line 699. -/
def removeChar (c : Char) (s : String) : String :=
  String.mk (s.toList.filter (fun a => a ≠ c))

def ppExtractAudio : Postprocessor :=
  ⟨"FFmpegExtractAudio", some "mp3", some "192", none⟩

def ppFFmpegMetadata : Postprocessor :=
  ⟨"FFmpegMetadata", none, none, some true⟩

def ppEmbedThumbnail : Postprocessor :=
  ⟨"EmbedThumbnail", none, none, none⟩

/-- get_ydl_options (hex.py lines 648-718), as a pure function of the UI
settings it reads. The mp3 branch builds the postprocessor list in the
Python append order; the video branch chooses the format selector string
by quality and sets the merge output format to the chosen container. -/
def get_ydl_options (u : UiSettings) : YdlOptions :=
  let base : YdlOptions :=
    { outtmpl := pathJoin u.output_path "%(title)s.%(ext)s"
      quiet := true
      no_warnings := true
      overwrites := true
      socket_timeout := 30
      user_agent := u.user_agent
      proxy := if u.proxy ≠ "" then some u.proxy else none
      cookiefile := if u.cookies ≠ "" ∧ u.cookiesFileExists then some u.cookies else none
      format := ""
      postprocessors := []
      merge_output_format := none
      writesubtitles := false
      embedsubtitles := false
      writethumbnail := false
      embedthumbnail := false
      addmetadata := false }
  if u.format = "mp3" then
    { base with
      format := "bestaudio/best"
      postprocessors :=
        [ppExtractAudio]
          ++ (if u.metadata then [ppFFmpegMetadata] else [])
          ++ (if u.thumbnail then [ppEmbedThumbnail] else []) }
  else
    let fmt :=
      if u.quality = "best" then "bv*[ext=mp4]+ba[ext=m4a]/b[ext=mp4]/bv*+ba/b"
      else if u.quality = "worst" then "wv*+wa/w"
      else "bv*[height<=" ++ removeChar 'p' u.quality
             ++ "][ext=mp4]+ba[ext=m4a]/b[ext=mp4]/bv*+ba/b"
    { base with
      format := fmt
      merge_output_format := some u.format
      writesubtitles := u.subtitle
      embedsubtitles := u.subtitle
      writethumbnail := u.thumbnail
      embedthumbnail := u.thumbnail
      addmetadata := u.metadata }

/-- Alternatives of a yt-dlp format selector: the string split on the
slash separator, first preference first. -/
def splitOnChar (c : Char) : List Char → List (List Char)
  | [] => [[]]
  | a :: rest =>
    if a = c then [] :: splitOnChar c rest
    else
      match splitOnChar c rest with
      | [] => [[a]]
      | g :: gs => (a :: g) :: gs

def formatAlternatives (fmt : String) : List String :=
  (splitOnChar '/' fmt.toList).map String.mk

end Hex

namespace Hex

/-- The mutable session state of CompactVideoDownloader that the
orchestrator claims touch: the downloading flag, the cancellation event,
the two action buttons, and a counter of background worker threads
spawned (to witness that no second operation starts). -/
structure AppState where
  downloading : Bool
  cancelFlag : Bool
  downloadBtnEnabled : Bool
  cancelBtnEnabled : Bool
  spawned : Nat
deriving Repr, DecidableEq

/-- re.match on the anchored pattern https?:// (hex.py line 779): the url
must begin with http:// or https:// (case-sensitive, as in Python). -/
def validScheme (url : String) : Bool :=
  strStartsWith url "http://" || strStartsWith url "https://"

/-- How a call to start_download returns. -/
inductive StartResult : Type
  | noOp
  | errMissingUrl
  | errInvalidUrl
  | errCannotCreateDir
  | started
deriving Repr, DecidableEq

/-- start_download (hex.py lines 768-807). The filesystem facts it
consults are parameters: dirExists models os.path.exists(output_path)
and dirCreatable models os.makedirs succeeding. On the started branch it
sets downloading, flips the buttons and spawns one worker thread. -/
def start_download (s : AppState) (rawUrl : String) (dirExists dirCreatable : Bool) :
    AppState × StartResult :=
  if s.downloading then (s, StartResult.noOp)
  else
    let url := trimStr rawUrl
    if url = "" then (s, StartResult.errMissingUrl)
    else if ¬ validScheme url then (s, StartResult.errInvalidUrl)
    else if ¬ dirExists ∧ ¬ dirCreatable then (s, StartResult.errCannotCreateDir)
    else
      ({ s with downloading := true, downloadBtnEnabled := false,
                cancelBtnEnabled := true, spawned := s.spawned + 1 },
       StartResult.started)

/-- cancel_download (hex.py lines 809-815): while downloading it sets the
cancel flag and immediately resets downloading to False; otherwise it
does nothing. -/
def cancel_download (s : AppState) : AppState :=
  if s.downloading then { s with cancelFlag := true, downloading := false }
  else s

/-- The finally clause of download_worker (hex.py lines 763-766):
downloading is reset and, through the relay, the download button is
re-enabled and the cancel button disabled. -/
def worker_finalize (s : AppState) : AppState :=
  { s with downloading := false, downloadBtnEnabled := true, cancelBtnEnabled := false }

end Hex

namespace Hex

theorem process_queue_eq_id {E : Type} (q : List E) : process_queue q = q := by
  induction q with
  | nil => rfl
  | cons e rest ih => simp [process_queue, ih]

theorem detectFrom_eq_find (l : List (String × List String)) (url : String) :
    detectFrom l url
      = (l.find? (fun pp => pp.2.any (fun p => patternMatches url p))).map Prod.fst := by
  induction l with
  | nil => rfl
  | cons hd tl ih =>
    obtain ⟨plat, pats⟩ := hd
    by_cases h : pats.any (fun p => patternMatches url p) = true
    · simp [detectFrom, List.find?, h]
    · rw [Bool.not_eq_true] at h
      simp [detectFrom, List.find?, h, ih]

/-- C8: detect is a total, deterministic function from URL strings to an
optional platform tag; it returns the first platform, in the fixed table
order, one of whose patterns matches the URL case-insensitively, and none
when no pattern matches, as on https example com video. Totality and
determinism are inherent: detect_platform is a total Lean function. -/
theorem detect_platform_spec :
    (∀ url, detect_platform url
      = (platformPatterns.find? (fun pp => pp.2.any (fun p => patternMatches url p))).map
          Prod.fst)
    ∧ detect_platform "https://example.com/video" = none
    ∧ detect_platform "https://www.youtube.com/watch?v=abc" = some "youtube" :=
  ⟨fun url => detectFrom_eq_find platformPatterns url, rfl, rfl⟩

/-- C4: the relay preserves order and is non-blocking on both sides.
Events E1, E2, E3 enqueued by queue_gui_update after any prior queue
contents are applied by a later process_queue drain in exactly that
order, and draining the empty queue yields nothing; process_queue being
a total function on the queued list is the promptness of the empty
drain. -/
theorem relay_order_spec :
    (∀ (E : Type) (q : List E) (e1 e2 e3 : E),
      process_queue (queue_gui_update (queue_gui_update (queue_gui_update q e1) e2) e3)
        = process_queue q ++ [e1, e2, e3])
    ∧ (∀ (E : Type), process_queue ([] : List E) = []) := by
  constructor
  · intro E q e1 e2 e3
    simp [queue_gui_update, process_queue_eq_id]
  · intro E
    rfl

/-- C3: while the downloading flag is set, start_download returns at once
as a no-op: the state is returned unchanged, no error result is produced,
no worker thread is spawned, and the session stays running. -/
theorem start_while_running_noop (s : AppState) (url : String) (de dc : Bool)
    (h : s.downloading = true) :
    start_download s url de dc = (s, StartResult.noOp)
    ∧ (start_download s url de dc).1.spawned = s.spawned
    ∧ (start_download s url de dc).1.downloading = true := by
  refine ⟨by simp [start_download, h], ?_, ?_⟩ <;> simp [start_download, h]

theorem start_while_running_noop_witness :
    start_download ⟨true, false, false, true, 1⟩ "https://youtu.be/x" true true
      = (⟨true, false, false, true, 1⟩, StartResult.noOp) :=
  (start_while_running_noop ⟨true, false, false, true, 1⟩ "https://youtu.be/x" true true rfl).1

end Hex

namespace Hex

/-- C5: start_download validates before any background work. When the
session is idle and the stripped URL is empty, or lacks an http or https
scheme prefix, or the output directory neither exists nor can be created,
start reports an error result synchronously, leaves the state unchanged,
spawns no worker thread, and does not enter the running state. -/
theorem start_validation_spec (s : AppState) (url : String) (de dc : Bool)
    (hidle : s.downloading = false)
    (hbad : trimStr url = "" ∨ validScheme (trimStr url) = false ∨ (de = false ∧ dc = false)) :
    (start_download s url de dc).1 = s
    ∧ (start_download s url de dc).2 ≠ StartResult.started
    ∧ (start_download s url de dc).2 ≠ StartResult.noOp
    ∧ (start_download s url de dc).1.spawned = s.spawned
    ∧ (start_download s url de dc).1.downloading = false := by
  by_cases h1 : trimStr url = ""
  · simp [start_download, hidle, h1]
  · by_cases h2 : validScheme (trimStr url) = true
    · rcases hbad with h | h | ⟨h3, h4⟩
      · exact absurd h h1
      · rw [h2] at h; exact absurd h (by simp)
      · simp [start_download, hidle, h1, h2, h3, h4]
    · rw [Bool.not_eq_true] at h2
      simp [start_download, hidle, h1, h2]

theorem start_validation_spec_witness :
    (start_download ⟨false, false, true, false, 0⟩ "notaurl" true true).2
      ≠ StartResult.started
    ∧ (start_download ⟨false, false, true, false, 0⟩ "notaurl" true true).1.downloading
      = false := by
  have h := start_validation_spec ⟨false, false, true, false, 0⟩ "notaurl" true true rfl
    (Or.inr (Or.inl rfl))
  exact ⟨h.2.1, h.2.2.2.2⟩

/-- C10: cancel_download while running sets the cancellation flag and
immediately resets the downloading flag, before the worker observes
either; hence a start_download issued right after cancel returns is not
the running no-op case, and with a valid URL and usable directory it
starts a new session, spawning a further worker thread even though the
previous one may still be executing. -/
theorem cancel_then_start_spec (s : AppState) (h : s.downloading = true) :
    (cancel_download s).cancelFlag = true
    ∧ (cancel_download s).downloading = false
    ∧ (∀ url de dc, (start_download (cancel_download s) url de dc).2 ≠ StartResult.noOp)
    ∧ (∀ url, trimStr url ≠ "" → validScheme (trimStr url) = true →
        (start_download (cancel_download s) url true true).2 = StartResult.started
        ∧ (start_download (cancel_download s) url true true).1.spawned = s.spawned + 1
        ∧ (start_download (cancel_download s) url true true).1.downloading = true) := by
  have hc : cancel_download s = { s with cancelFlag := true, downloading := false } := by
    simp [cancel_download, h]
  refine ⟨by rw [hc], by rw [hc], ?_, ?_⟩
  · intro url de dc
    rw [hc]
    by_cases h1 : trimStr url = ""
    · simp [start_download, h1]
    · by_cases h2 : validScheme (trimStr url) = true
      · by_cases h3 : de = false ∧ dc = false
        · simp [start_download, h1, h2, h3]
        · simp only [start_download] at *
          split_ifs <;> simp_all
      · rw [Bool.not_eq_true] at h2
        simp [start_download, h1, h2]
  · intro url h1 h2
    rw [hc]
    refine ⟨?_, ?_, ?_⟩ <;> simp [start_download, h1, h2]

theorem cancel_then_start_spec_witness :
    (cancel_download ⟨true, false, false, true, 3⟩).cancelFlag = true
    ∧ (cancel_download ⟨true, false, false, true, 3⟩).downloading = false
    ∧ (start_download (cancel_download ⟨true, false, false, true, 3⟩)
        "https://youtu.be/x" true true).2 = StartResult.started := by
  have h := cancel_then_start_spec ⟨true, false, false, true, 3⟩ rfl
  exact ⟨h.1, h.2.1, (h.2.2.2 "https://youtu.be/x" (by decide) rfl).1⟩

end Hex

namespace Hex

/-- C1: when the cancellation flag is set as the progress callback next
runs, progress_hook raises the cancellation-specific DownloadError before
any progress handling; download_worker recognizes that error text and the
terminal outcome is Cancelled, never Finished or Failed; and the finally
clause returns the session to idle with the download button re-enabled
and the cancel button disabled. -/
theorem cancel_flag_terminal_spec (s : AppState) (d : ProgressDict)
    (h : s.cancelFlag = true) :
    progress_hook s.cancelFlag d = Except.error "Download cancelled by user"
    ∧ download_worker_outcome (LibRun.downloadError "Download cancelled by user")
        = Outcome.cancelledOut
    ∧ (∀ t, download_worker_outcome (LibRun.downloadError "Download cancelled by user")
        ≠ Outcome.finished t)
    ∧ (∀ m, download_worker_outcome (LibRun.downloadError "Download cancelled by user")
        ≠ Outcome.failed m)
    ∧ (worker_finalize s).downloading = false
    ∧ (worker_finalize s).downloadBtnEnabled = true
    ∧ (worker_finalize s).cancelBtnEnabled = false := by
  have hout : download_worker_outcome (LibRun.downloadError "Download cancelled by user")
      = Outcome.cancelledOut := rfl
  refine ⟨by simp [progress_hook, h], hout, ?_, ?_, rfl, rfl, rfl⟩
  · intro t
    rw [hout]
    simp
  · intro m
    rw [hout]
    simp

theorem cancel_flag_terminal_spec_witness :
    progress_hook (AppState.cancelFlag ⟨true, true, false, true, 1⟩)
        ⟨"downloading", some 100, none, some 10, none⟩
      = Except.error "Download cancelled by user"
    ∧ (worker_finalize ⟨true, true, false, true, 1⟩).downloading = false := by
  have h := cancel_flag_terminal_spec ⟨true, true, false, true, 1⟩
    ⟨"downloading", some 100, none, some 10, none⟩ rfl
  exact ⟨h.1, h.2.2.2.2.1⟩

/-- C2 counterexample: a library failure whose text contains Private video
is NOT given access-restricted guidance by the background download
operation; download_worker reports the raw text truncated, a message that
differs from the cookies guidance produced elsewhere and mentions no
cookies at all. -/
theorem download_worker_no_classification :
    download_worker_log "Private video" = "✗ Download failed: Private video"
    ∧ download_worker_log "Private video" ≠ classify_info_error "Private video"
    ∧ strContains (download_worker_log "Private video") "cookies" = false
    ∧ download_worker_outcome (LibRun.downloadError "Private video")
        = Outcome.failed "Private video" := by
  refine ⟨rfl, ?_, rfl, rfl⟩
  have h1 : download_worker_log "Private video" = "✗ Download failed: Private video" := rfl
  have h2 : classify_info_error "Private video"
      = "✗ Private/age-restricted video (use cookies)" := rfl
  rw [h1, h2]
  decide

/-- C2 amended: the Private video and not available classification is
performed by the info-fetch operation get_video_info, whose handler
reports access-restricted guidance when the text contains Private video
or Sign in, geo-restriction guidance when it contains not available
case-insensitively, and otherwise the raw text truncated to 100
characters; the background download operation download_worker instead
reports Cancelled for texts containing cancelled and otherwise only the
raw text truncated to 100 characters, with no further classification. -/
theorem error_classification_spec (msg : String) :
    ((strContains msg "Private video" || strContains msg "Sign in") = true →
      classify_info_error msg = "✗ Private/age-restricted video (use cookies)")
    ∧ ((strContains msg "Private video" || strContains msg "Sign in") = false →
      strContains (lowerStr msg) "not available" = true →
      classify_info_error msg = "✗ Geo-restricted content (use proxy)")
    ∧ ((strContains msg "Private video" || strContains msg "Sign in") = false →
      strContains (lowerStr msg) "not available" = false →
      classify_info_error msg = "✗ Error: " ++ strTake msg 100)
    ∧ (strContains (lowerStr msg) "cancelled" = false →
      download_worker_log msg = "✗ Download failed: " ++ strTake msg 100
      ∧ download_worker_outcome (LibRun.downloadError msg)
          = Outcome.failed (strTake msg 100))
    ∧ (strContains (lowerStr msg) "cancelled" = true →
      download_worker_log msg = "✗ Download cancelled"
      ∧ download_worker_outcome (LibRun.downloadError msg) = Outcome.cancelledOut) := by
  refine ⟨?_, ?_, ?_, ?_, ?_⟩
  · intro h
    simp [classify_info_error, h]
  · intro h1 h2
    simp [classify_info_error, h1, h2]
  · intro h1 h2
    simp [classify_info_error, h1, h2]
  · intro h
    exact ⟨by simp [download_worker_log, h], by simp [download_worker_outcome, h]⟩
  · intro h
    exact ⟨by simp [download_worker_log, h], by simp [download_worker_outcome, h]⟩

theorem error_classification_spec_witness :
    classify_info_error "Private video"
      = "✗ Private/age-restricted video (use cookies)"
    ∧ classify_info_error "This video is not available"
      = "✗ Geo-restricted content (use proxy)"
    ∧ classify_info_error "HTTP Error 500"
      = "✗ Error: HTTP Error 500"
    ∧ download_worker_log "Some random failure"
      = "✗ Download failed: Some random failure"
    ∧ download_worker_log "Download cancelled by user" = "✗ Download cancelled" := by
  refine ⟨(error_classification_spec "Private video").1 rfl,
        (error_classification_spec "This video is not available").2.1 rfl rfl,
        ?_, ?_, ((error_classification_spec "Download cancelled by user").2.2.2.2 rfl).1⟩
  · have h := (error_classification_spec "HTTP Error 500").2.2.1 rfl rfl
    rw [h]
    rfl
  · have h := ((error_classification_spec "Some random failure").2.2.2.1 rfl).1
    rw [h]
    rfl

end Hex

namespace Hex

/-- C6: for format mp3 the options select the best-available audio stream,
begin the postprocessing pipeline with the audio-extraction step to mp3 at
bitrate 192, contain a metadata-embedding step exactly when the metadata
flag is set and a thumbnail-embedding step exactly when the thumbnail
flag is set, and carry no video merge output format. -/
theorem mp3_options_spec (u : UiSettings) (h : u.format = "mp3") :
    (get_ydl_options u).format = "bestaudio/best"
    ∧ (get_ydl_options u).postprocessors.head? = some ppExtractAudio
    ∧ ppExtractAudio.preferredcodec = some "mp3"
    ∧ ppExtractAudio.preferredquality = some "192"
    ∧ ((get_ydl_options u).postprocessors.any (fun pp => pp.key == "FFmpegMetadata"))
        = u.metadata
    ∧ ((get_ydl_options u).postprocessors.any (fun pp => pp.key == "EmbedThumbnail"))
        = u.thumbnail
    ∧ (get_ydl_options u).merge_output_format = none := by
  cases hm : u.metadata <;> cases ht : u.thumbnail <;>
    simp [get_ydl_options, h, hm, ht, ppExtractAudio, ppFFmpegMetadata, ppEmbedThumbnail]

theorem mp3_options_spec_witness :
    (get_ydl_options ⟨"/tmp", "mp3", "best", false, true, true, "UA", "", "", false⟩).format
      = "bestaudio/best"
    ∧ (get_ydl_options
        ⟨"/tmp", "mp3", "best", false, true, true, "UA", "", "", false⟩).merge_output_format
      = none := by
  have h := mp3_options_spec ⟨"/tmp", "mp3", "best", false, true, true, "UA", "", "", false⟩ rfl
  exact ⟨h.1, h.2.2.2.2.2.2⟩

/-- C7: for quality 720p with a video format mp4, the builder produces the
selector whose first preference constrains the video height to at most 720
and requires the mp4 container, with the fallback alternatives only after
it, and mp4 becomes the output merge format. -/
theorem quality720_mp4_spec (u : UiSettings) (hq : u.quality = "720p") (hf : u.format = "mp4") :
    (get_ydl_options u).format
      = "bv*[height<=720][ext=mp4]+ba[ext=m4a]/b[ext=mp4]/bv*+ba/b"
    ∧ formatAlternatives (get_ydl_options u).format
      = ["bv*[height<=720][ext=mp4]+ba[ext=m4a]", "b[ext=mp4]", "bv*+ba", "b"]
    ∧ strContains ((formatAlternatives (get_ydl_options u).format).headD "") "height<=720"
      = true
    ∧ strContains ((formatAlternatives (get_ydl_options u).format).headD "") "ext=mp4"
      = true
    ∧ (get_ydl_options u).merge_output_format = some "mp4" := by
  have h1 : (get_ydl_options u).format
      = "bv*[height<=720][ext=mp4]+ba[ext=m4a]/b[ext=mp4]/bv*+ba/b" := by
    simp [get_ydl_options, hq, hf]
    rfl
  have h2 : (get_ydl_options u).merge_output_format = some "mp4" := by
    rw [← hf]
    simp [get_ydl_options, hq, hf]
  rw [h1]
  exact ⟨rfl, rfl, rfl, rfl, h2⟩

theorem quality720_mp4_spec_witness :
    (get_ydl_options ⟨"/tmp", "mp4", "720p", false, true, true, "UA", "", "", false⟩).format
      = "bv*[height<=720][ext=mp4]+ba[ext=m4a]/b[ext=mp4]/bv*+ba/b"
    ∧ (get_ydl_options
        ⟨"/tmp", "mp4", "720p", false, true, true, "UA", "", "", false⟩).merge_output_format
      = some "mp4" := by
  have h := quality720_mp4_spec ⟨"/tmp", "mp4", "720p", false, true, true, "UA", "", "", false⟩
    rfl rfl
  exact ⟨h.1, h.2.2.2.2⟩

end Hex

namespace Hex

/-- C9 counterexample: a downloading callback with total bytes 100 and
downloaded bytes 200 (possible when the total is an estimate) makes
progress_hook compute and deliver percent 200, outside the range 0 to
100; the code applies no clamping. -/
theorem progress_percent_over_100 :
    progress_percent ⟨"downloading", some 100, none, some 200, none⟩ = some 200
    ∧ ¬ ((0 : ℚ) ≤ 200 ∧ (200 : ℚ) ≤ 100) := by
  constructor
  · norm_num [progress_percent, hookTotal]
  · norm_num

/-- C9 amended: for every downloading callback with a positive total, the
computed percent, downloaded divided by total times 100, lies in the
range 0 to 100 inclusive provided the downloaded byte count is
nonnegative and does not exceed the total; without that proviso the value
can exceed 100. -/
theorem progress_percent_in_range (d : ProgressDict) (p : ℚ)
    (hnn : 0 ≤ d.downloaded_bytes.getD 0)
    (hle : d.downloaded_bytes.getD 0 ≤ hookTotal d)
    (hp : progress_percent d = some p) :
    0 ≤ p ∧ p ≤ 100 := by
  unfold progress_percent at hp
  split_ifs at hp with h1 h2
  · rw [Option.some.injEq] at hp
    subst hp
    constructor
    · have hq : 0 ≤ d.downloaded_bytes.getD 0 / hookTotal d := div_nonneg hnn (le_of_lt h2)
      positivity
    · have hq : d.downloaded_bytes.getD 0 / hookTotal d ≤ 1 := (div_le_one h2).mpr hle
      calc d.downloaded_bytes.getD 0 / hookTotal d * 100 ≤ 1 * 100 := by
            exact mul_le_mul_of_nonneg_right hq (by norm_num)
        _ = 100 := by norm_num

theorem progress_percent_in_range_witness :
    progress_percent ⟨"downloading", some 100, none, some 50, none⟩ = some 50
    ∧ ((0 : ℚ) ≤ 50 ∧ (50 : ℚ) ≤ 100) := by
  have hp : progress_percent ⟨"downloading", some 100, none, some 50, none⟩ = some 50 := by
    norm_num [progress_percent, hookTotal]
  refine ⟨hp, progress_percent_in_range ⟨"downloading", some 100, none, some 50, none⟩ 50
    ?_ ?_ hp⟩
  · norm_num [Option.getD]
  · norm_num [Option.getD, hookTotal]

end Hex
